import Mathlib

/-!
Verification of the Spotify API client (`src/spotify_connector.py`).

The Python class `SpotifyConnector` is shallowly embedded below.  The class
holds mutable fields `access_token` and `token_expiry`; we model them as an
explicit state record (`ConnState`) threaded through the methods.  HTTP
responses received from the network are inputs to the model
(`HttpResponse`); `json?` is the result of attempting to parse the body
(`none` means `response.json()` raises a decode error).  Exceptions are
modelled by `PyResult`, which carries the instance state at the moment the
exception escapes, so that partial state updates are observable.  The
process clock `time()` is passed as an integer parameter `now`.
-/

set_option autoImplicit false

/-- A JSON value, as produced by `response.json()`. -/
inductive Json where
  | null
  | bool (b : Bool)
  | num (n : Int)
  | str (s : String)
  | arr (elems : List Json)
  | obj (fields : List (String × Json))

/-- The error kinds the client can raise, following the spec taxonomy:
configuration error (`ValueError` for a missing credential), authentication
error (`Exception` on non-200 from the token endpoint), request error
(`Exception` carrying status and body text on non-200 from a resource
endpoint), and the Python runtime errors the dict/list traversal can raise. -/
inductive SpotifyError where
  | configError (var : String)
  | authError
  | requestError (status : Nat) (body : String)
  | jsonParseError
  | keyError (k : String)
  | indexError
  | typeError
deriving DecidableEq

/-- An HTTP response as the client observes it: `status` is
`response.status_code`, `text` is `response.text`, and `json?` is the
outcome of `response.json()` (`none` when the body is not valid JSON). -/
structure HttpResponse where
  status : Nat
  text : String
  json? : Option Json

/-- The mutable token state of a `SpotifyConnector` instance:
`self.access_token` (initially `None`, then whatever JSON value the token
response supplied) and `self.token_expiry` (initially `None`, then an
absolute instant). -/
structure ConnState where
  access_token : Option Json
  token_expiry : Option Int

/-- Outcome of running a method on a state: either a normal return with the
final state, or an escaping exception together with the state at the moment
it escapes (so partial updates remain visible). -/
inductive PyResult (σ : Type) (α : Type) where
  | ok (s : σ) (a : α)
  | exn (e : SpotifyError) (s : σ)

/-- First binding of a key in a parsed JSON object (parsed objects have
unique keys, so first-match agrees with Python dict lookup). -/
def lookupField : List (String × Json) → String → Option Json
  | [], _ => none
  | (k, v) :: rest, key => if k = key then some v else lookupField rest key

/-- Python `d[k]`: value of the key in a dict, `KeyError` when absent,
`TypeError` when the value is not a dict at all. -/
def Json.getKeyE : Json → String → Except SpotifyError Json
  | .obj fs, k =>
    match lookupField fs k with
    | some v => .ok v
    | none => .error (.keyError k)
  | _, _ => .error .typeError

/-- Python `d.get(k, default)`: the key's value, or the default when the key
is absent; an attribute error (modelled as `typeError`) when the receiver is
not a dict. -/
def Json.pyGet (j : Json) (k : String) (default : Json) : Except SpotifyError Json :=
  match j with
  | .obj fs => .ok ((lookupField fs k).getD default)
  | _ => .error .typeError

/-- Python `l[i]` on a parsed JSON list: `IndexError` out of range,
`TypeError` when the value is not a list. -/
def Json.pyIndex (j : Json) (i : Nat) : Except SpotifyError Json :=
  match j with
  | .arr xs =>
    match xs.get? i with
    | some v => .ok v
    | none => .error .indexError
  | _ => .error .typeError

/-- The integer value of a JSON number; `TypeError` otherwise (Python would
raise it when adding the value to `time()`). -/
def Json.asInt : Json → Except SpotifyError Int
  | .num n => .ok n
  | _ => .error .typeError

/-- Python truthiness of an `Optional[str]`: `None` and `""` are falsy. -/
def pyTruthy : Option String → Bool
  | none => false
  | some s => !(s == "")

def token_url : String := "https://accounts.spotify.com/api/token"

def base_url : String := "https://api.spotify.com/v1/"

/-- The credential fields `self._client_id` / `self._client_secret`,
`none` when the constructor argument was omitted. -/
structure CredState where
  _client_id : Option String
  _client_secret : Option String

/-- The `client_id` property: when `_client_id is None`, read the
`SPOTIFY_CLIENT_ID` environment variable, raise `ValueError` when the
stored value is falsy, else return it.  `env` models `os.getenv`. -/
def client_id (env : String → Option String) (c : CredState) :
    Except SpotifyError (Option String × CredState) :=
  match c._client_id with
  | some v => .ok (some v, c)
  | none =>
    let c1 : CredState := { c with _client_id := env "SPOTIFY_CLIENT_ID" }
    if pyTruthy c1._client_id then .ok (c1._client_id, c1)
    else .error (.configError "SPOTIFY_CLIENT_ID")

/-- The `client_secret` property: when `_client_secret is None`, read the
`SPOTIFY_CLIENT_SECRET` environment variable; the source then tests
`if not self._client_id:` (the id field, exactly as written on line 33)
before returning `self._client_secret`. -/
def client_secret (env : String → Option String) (c : CredState) :
    Except SpotifyError (Option String × CredState) :=
  match c._client_secret with
  | some v => .ok (some v, c)
  | none =>
    let c1 : CredState := { c with _client_secret := env "SPOTIFY_CLIENT_SECRET" }
    if pyTruthy c1._client_id then .ok (c1._client_secret, c1)
    else .error (.configError "SPOTIFY_CLIENT_SECRET")

/-- `SpotifyConnector.authenticate`: POST to the token endpoint, parse the
body (`token_info = response.json()` happens before the status check), then
on status 200 assign `self.access_token = token_info['access_token']`,
read `expires_in = token_info['expires_in']` and assign
`self.token_expiry = time() + expires_in`; on any other status raise.
`resp` is the token endpoint's response, `now` the value of `time()`. -/
def authenticate (now : Int) (resp : HttpResponse) (s : ConnState) :
    PyResult ConnState Unit :=
  match resp.json? with
  | none => .exn .jsonParseError s
  | some token_info =>
    if resp.status = 200 then
      match token_info.getKeyE "access_token" with
      | .error e => .exn e s
      | .ok tok =>
        let s1 : ConnState := { s with access_token := some tok }
        match token_info.getKeyE "expires_in" with
        | .error e => .exn e s1
        | .ok ej =>
          match ej.asInt with
          | .error e => .exn e s1
          | .ok n => .ok { s1 with token_expiry := some (now + n) } ()
    else
      .exn .authError s

/-- `SpotifyConnector.is_token_expired`: `return time() > self.token_expiry`;
comparing against a `None` expiry is a Python `TypeError`. -/
def is_token_expired (now : Int) (s : ConnState) : Except SpotifyError Bool :=
  match s.token_expiry with
  | none => .error .typeError
  | some e => .ok (decide (e < now))

/-- `SpotifyConnector.refresh_token`: `if self.is_token_expired():
self.authenticate()`.  The second component counts how many times
`authenticate` was invoked. -/
def refresh_token (now : Int) (aresp : HttpResponse) (s : ConnState) :
    PyResult ConnState Unit × Nat :=
  match is_token_expired now s with
  | .error e => (.exn e s, 0)
  | .ok true => (authenticate now aresp s, 1)
  | .ok false => (.ok s (), 0)

/-- Observable side effects of one `make_request` call: how many times
`authenticate` ran, and the URL the underlying GET was issued to
(`none` when no GET was issued). -/
structure ReqTrace where
  auth_calls : Nat
  get_url : Option String
deriving DecidableEq

/-- `SpotifyConnector.make_request`: run `refresh_token` first, then GET
`base_url + endpoint` with the bearer token; on status 200 return the
parsed JSON body, otherwise raise an exception carrying the status code and
`response.text`.  `aresp` is the token endpoint's response should
re-authentication occur, `rresp` the resource endpoint's response. -/
def make_request (endpoint : String) (now : Int) (aresp rresp : HttpResponse)
    (s : ConnState) : PyResult ConnState Json × ReqTrace :=
  match refresh_token now aresp s with
  | (.exn e s1, n) => (.exn e s1, ⟨n, none⟩)
  | (.ok s1 _, n) =>
    let url := base_url ++ endpoint
    if rresp.status = 200 then
      match rresp.json? with
      | some j => (.ok s1 j, ⟨n, some url⟩)
      | none => (.exn .jsonParseError s1, ⟨n, some url⟩)
    else
      (.exn (.requestError rresp.status rresp.text) s1, ⟨n, some url⟩)

/-- A Python list comprehension `[f(x) for x in xs]` whose body may raise:
evaluates left to right, stopping at the first exception. -/
def listComp {α : Type} (f : Json → Except SpotifyError α) :
    List Json → Except SpotifyError (List α)
  | [] => .ok []
  | x :: xs =>
    match f x with
    | .error e => .error e
    | .ok y =>
      match listComp f xs with
      | .error e => .error e
      | .ok ys => .ok (y :: ys)

/-- Endpoint selection in `get_playlists`: the source branches on the
truthiness of `category_id` (`if category_id:`), so both `None` and the
empty string select the featured listing. -/
def get_playlists_endpoint (category_id : Option String) : String :=
  if pyTruthy category_id then
    "browse/categories/" ++ category_id.getD "" ++ "/playlists"
  else
    "browse/featured-playlists"

/-- The projection step of `get_playlists`:
`data.get('playlists', {}).get('items', [])` followed by
`[playlist['id'] for playlist in playlists]`. -/
def get_playlists_extract (data : Json) : Except SpotifyError (List Json) :=
  match data.pyGet "playlists" (Json.obj []) with
  | .error e => .error e
  | .ok playlists =>
    match playlists.pyGet "items" (Json.arr []) with
    | .error e => .error e
    | .ok items =>
      match items with
      | .arr xs => listComp (fun playlist => playlist.getKeyE "id") xs
      | _ => .error .typeError

/-- `SpotifyConnector.get_playlists`: select the endpoint, call
`make_request`, project the response to the list of playlist ids. -/
def get_playlists_run (now : Int) (aresp rresp : HttpResponse) (s : ConnState)
    (category_id : Option String) : PyResult ConnState (List Json) × ReqTrace :=
  match make_request (get_playlists_endpoint category_id) now aresp rresp s with
  | (.exn e s1, t) => (.exn e s1, t)
  | (.ok s1 data, t) =>
    match get_playlists_extract data with
    | .error e => (.exn e s1, t)
    | .ok ids => (.ok s1 ids, t)

/-- One record produced by `get_playlist_tracks`:
`{'name': ..., 'artist': ..., 'id': ...}`. -/
structure TrackDetail where
  name : Json
  artist : Json
  id : Json

/-- The comprehension body of `get_playlist_tracks`: for one item, build
`{'name': track['track']['name'],
  'artist': track['track']['artists'][0]['name'],
  'id': track['track']['id']}`, evaluating the three values in dict-literal
order. -/
def extract_track (item : Json) : Except SpotifyError TrackDetail :=
  match item.getKeyE "track" with
  | .error e => .error e
  | .ok track =>
    match track.getKeyE "name" with
    | .error e => .error e
    | .ok nm =>
      match track.getKeyE "artists" with
      | .error e => .error e
      | .ok artists =>
        match artists.pyIndex 0 with
        | .error e => .error e
        | .ok firstArtist =>
          match firstArtist.getKeyE "name" with
          | .error e => .error e
          | .ok artistName =>
            match track.getKeyE "id" with
            | .error e => .error e
            | .ok tid => .ok ⟨nm, artistName, tid⟩

/-- The projection step of `get_playlist_tracks`:
`data.get('items', [])` followed by the comprehension over it. -/
def get_playlist_tracks_extract (data : Json) :
    Except SpotifyError (List TrackDetail) :=
  match data.pyGet "items" (Json.arr []) with
  | .error e => .error e
  | .ok tracks =>
    match tracks with
    | .arr xs => listComp extract_track xs
    | _ => .error .typeError

/-- `SpotifyConnector.get_playlist_tracks`: GET
`playlists/{playlist_id}/tracks` through `make_request`, then project each
item to a `TrackDetail`. -/
def get_playlist_tracks_run (playlist_id : String) (now : Int)
    (aresp rresp : HttpResponse) (s : ConnState) :
    PyResult ConnState (List TrackDetail) × ReqTrace :=
  match make_request ("playlists/" ++ playlist_id ++ "/tracks") now aresp rresp s with
  | (.exn e s1, t) => (.exn e s1, t)
  | (.ok s1 data, t) =>
    match get_playlist_tracks_extract data with
    | .error e => (.exn e s1, t)
    | .ok recs => (.ok s1 recs, t)

/-! ## Helper lemmas -/

/-- `refresh_token` with an expired token is exactly one `authenticate`. -/
theorem refresh_token_expired (now : Int) (aresp : HttpResponse) (s : ConnState)
    (h : is_token_expired now s = .ok true) :
    refresh_token now aresp s = (authenticate now aresp s, 1) := by
  simp only [refresh_token, h]

/-- `refresh_token` with a fresh token does nothing. -/
theorem refresh_token_fresh (now : Int) (aresp : HttpResponse) (s : ConnState)
    (h : is_token_expired now s = .ok false) :
    refresh_token now aresp s = (.ok s (), 0) := by
  simp only [refresh_token, h]

/-- `refresh_token` calls `authenticate` at most once. -/
theorem refresh_token_calls_le (now : Int) (aresp : HttpResponse)
    (s : ConnState) : (refresh_token now aresp s).2 ≤ 1 := by
  rcases h : is_token_expired now s with e | b
  · simp only [refresh_token, h]
    exact Nat.zero_le 1
  · cases b
    · simp only [refresh_token, h]
      exact Nat.zero_le 1
    · simp only [refresh_token, h]
      exact Nat.le_refl 1

/-- The `authenticate` count of a `make_request` call is exactly the one of
its initial `refresh_token` step. -/
theorem make_request_auth_calls (endpoint : String) (now : Int)
    (aresp rresp : HttpResponse) (s : ConnState) :
    (make_request endpoint now aresp rresp s).2.auth_calls
      = (refresh_token now aresp s).2 := by
  rcases h : refresh_token now aresp s with ⟨r, n⟩
  rcases r with ⟨s1, a⟩ | ⟨e, s1⟩
  · simp only [make_request, h]
    split
    · rcases rresp.json? with _ | j <;> rfl
    · rfl
  · simp only [make_request, h]

/-- When the refresh step succeeds, `make_request` issues exactly one GET,
to `base_url ++ endpoint`. -/
theorem make_request_trace_of_refresh_ok (endpoint : String) (now : Int)
    (aresp rresp : HttpResponse) (s s1 : ConnState) (n : Nat)
    (h : refresh_token now aresp s = (.ok s1 (), n)) :
    (make_request endpoint now aresp rresp s).2
      = ⟨n, some (base_url ++ endpoint)⟩ := by
  simp only [make_request, h]
  split
  · rcases rresp.json? with _ | j <;> rfl
  · rfl

/-- `make_request` on a 200 response with a parseable body returns the
parsed body. -/
theorem make_request_ok (endpoint : String) (now : Int)
    (aresp rresp : HttpResponse) (s s1 : ConnState) (n : Nat) (j : Json)
    (hr : refresh_token now aresp s = (.ok s1 (), n))
    (h200 : rresp.status = 200) (hj : rresp.json? = some j) :
    make_request endpoint now aresp rresp s
      = (.ok s1 j, ⟨n, some (base_url ++ endpoint)⟩) := by
  simp only [make_request, hr]
  rw [if_pos h200, hj]

/-- `make_request` on a non-200 response raises the request error carrying
the status code and the body text. -/
theorem make_request_err (endpoint : String) (now : Int)
    (aresp rresp : HttpResponse) (s s1 : ConnState) (n : Nat)
    (hr : refresh_token now aresp s = (.ok s1 (), n))
    (hne : rresp.status ≠ 200) :
    make_request endpoint now aresp rresp s
      = (.exn (.requestError rresp.status rresp.text) s1,
         ⟨n, some (base_url ++ endpoint)⟩) := by
  simp only [make_request, hr]
  rw [if_neg hne]

/-- A comprehension whose body succeeds on every element, with the given
results, succeeds with the list of results. -/
theorem listComp_ok_of_forall2 {α : Type} (f : Json → Except SpotifyError α)
    (xs : List Json) (ys : List α)
    (h : List.Forall₂ (fun x y => f x = .ok y) xs ys) :
    listComp f xs = .ok ys := by
  induction h with
  | nil => rfl
  | cons hxy htail ih => simp only [listComp, hxy, ih]

/-! ## Claims -/

/-- Claim C8: `is_token_expired` returns true iff the current time is
strictly greater than the stored expiry instant; at a time equal to the
expiry it returns false, one unit past it returns true. -/
theorem c8_is_token_expired_iff (now e : Int) (s : ConnState)
    (h : s.token_expiry = some e) :
    is_token_expired now s = .ok (decide (e < now)) ∧
    is_token_expired e s = .ok false ∧
    is_token_expired (e + 1) s = .ok true := by
  unfold is_token_expired
  rw [h]
  refine ⟨rfl, ?_, ?_⟩
  · simp
  · simp

/-- Witness for C8 at expiry instant 7: not expired at time 7, expired at
time 8. -/
theorem c8_witness :
    is_token_expired 7 ⟨none, some 7⟩ = .ok false ∧
    is_token_expired 8 ⟨none, some 7⟩ = .ok true := by
  have h := c8_is_token_expired_iff 7 7 ⟨none, some 7⟩ rfl
  exact ⟨h.2.1, by simpa using h.2.2⟩

/-- Claim C9: `get_playlists` with the empty string as category id selects
the featured-playlists endpoint, exactly as with `None`, and not the
degenerate category-scoped path: the branch is on Python truthiness. -/
theorem c9_empty_category_is_featured :
    get_playlists_endpoint (some "") = "browse/featured-playlists" ∧
    get_playlists_endpoint (some "") ≠ "browse/categories//playlists" ∧
    get_playlists_endpoint (some "") = get_playlists_endpoint none := by
  refine ⟨rfl, by decide, rfl⟩

/-- Claim C2 (code bug evidence): when the client id was supplied but the
client secret is absent from both the constructor and the environment, the
`client_secret` property returns the missing value (`None`) instead of
raising the configuration error, because the guard on line 33 tests
`_client_id` where `_client_secret` was clearly intended (its own error
message names `SPOTIFY_CLIENT_SECRET`).  The second conjunct shows the
intended raise does fire when `_client_id` is also unset. -/
theorem c2_client_secret_missing_not_raised :
    client_secret (fun _ => none) ⟨some "id", none⟩
      = .ok (none, ⟨some "id", none⟩) ∧
    client_secret (fun _ => none) ⟨none, none⟩
      = .error (.configError "SPOTIFY_CLIENT_SECRET") ∧
    client_id (fun _ => none) ⟨none, none⟩
      = .error (.configError "SPOTIFY_CLIENT_ID") := by
  refine ⟨rfl, rfl, rfl⟩

/-- Claim C10: `authenticate` parses the body before checking the status
code, so a non-200 token-endpoint response with an unparseable body fails
with the body-parse error, not the authentication error, and leaves the
token state unchanged. -/
theorem c10_parse_error_before_status_check (now : Int) (resp : HttpResponse)
    (s : ConnState) (hs : resp.status ≠ 200) (hj : resp.json? = none) :
    authenticate now resp s = .exn .jsonParseError s ∧
    SpotifyError.jsonParseError ≠ SpotifyError.authError := by
  constructor
  · unfold authenticate
    rw [hj]
  · decide

/-- Witness for C10: a 500 response with a non-JSON body. -/
theorem c10_witness :
    authenticate 0 ⟨500, "<html>err</html>", none⟩ ⟨some (Json.str "T"), some 9⟩
      = .exn .jsonParseError ⟨some (Json.str "T"), some 9⟩ :=
  (c10_parse_error_before_status_check 0 ⟨500, "<html>err</html>", none⟩
    ⟨some (Json.str "T"), some 9⟩ (by decide) rfl).1

/-- Claim C4 (counterexample): a 500 token-endpoint response whose body is
not valid JSON makes `authenticate` fail with the body-parse error, which
is a different error than the authentication error the claim promises for
every non-200 response. -/
theorem c4_counterexample :
    authenticate 0 ⟨500, "oops", none⟩ ⟨none, none⟩
      = .exn .jsonParseError ⟨none, none⟩ ∧
    (PyResult.exn .jsonParseError (⟨none, none⟩ : ConnState)
        : PyResult ConnState Unit)
      ≠ .exn .authError ⟨none, none⟩ := by
  refine ⟨rfl, ?_⟩
  simp

/-- Claim C4 (amended): for every non-200 token-endpoint response,
`authenticate` fails and leaves both stored token fields exactly as they
were — with the authentication error when the body is valid JSON, and with
a body-parse error when it is not. -/
theorem c4_nonok_leaves_state (now : Int) (resp : HttpResponse)
    (s : ConnState) (hs : resp.status ≠ 200) :
    (∀ info, resp.json? = some info →
        authenticate now resp s = .exn .authError s) ∧
    (resp.json? = none → authenticate now resp s = .exn .jsonParseError s) := by
  constructor
  · intro info hj
    simp only [authenticate, hj]
    rw [if_neg hs]
  · intro hj
    unfold authenticate
    rw [hj]

/-- Witness for C4 (amended): a 401 with a JSON body leaves a previously
stored token untouched and raises the authentication error. -/
theorem c4_witness :
    authenticate 0 ⟨401, "err", some Json.null⟩ ⟨some (Json.str "T"), some 9⟩
      = .exn .authError ⟨some (Json.str "T"), some 9⟩ :=
  (c4_nonok_leaves_state 0 ⟨401, "err", some Json.null⟩
    ⟨some (Json.str "T"), some 9⟩ (by decide)).1 Json.null rfl

/-- Claim C3 (counterexample): a 200 token response supplying
`access_token` but no `expires_in` updates the stored `access_token`
(from `none` to the new token) while leaving `token_expiry` unchanged —
a partial update of the token pair. -/
theorem c3_counterexample :
    authenticate 0 ⟨200, "", some (Json.obj [("access_token", Json.str "T1")])⟩
        ⟨none, none⟩
      = .exn (.keyError "expires_in") ⟨some (Json.str "T1"), none⟩ ∧
    (some (Json.str "T1") : Option Json) ≠ none := by
  refine ⟨rfl, by simp⟩

/-- Claim C3 (amended): `authenticate` replaces the token pair wholesale
when a 200 body supplies both consumed fields, and touches nothing when the
body fails to parse, the status is not 200, or `access_token` is absent;
but when a 200 body supplies `access_token` and fails on `expires_in`, the
stored `access_token` is updated while `token_expiry` is not. -/
theorem c3_token_replacement (now : Int) (resp : HttpResponse)
    (s : ConnState) :
    (∀ info tok ej n, resp.json? = some info → resp.status = 200 →
        info.getKeyE "access_token" = .ok tok →
        info.getKeyE "expires_in" = .ok ej → ej.asInt = .ok n →
        authenticate now resp s = .ok ⟨some tok, some (now + n)⟩ ()) ∧
    (resp.json? = none → authenticate now resp s = .exn .jsonParseError s) ∧
    (∀ info, resp.json? = some info → resp.status ≠ 200 →
        authenticate now resp s = .exn .authError s) ∧
    (∀ info e, resp.json? = some info → resp.status = 200 →
        info.getKeyE "access_token" = .error e →
        authenticate now resp s = .exn e s) ∧
    (∀ info tok e, resp.json? = some info → resp.status = 200 →
        info.getKeyE "access_token" = .ok tok →
        info.getKeyE "expires_in" = .error e →
        authenticate now resp s = .exn e ⟨some tok, s.token_expiry⟩) := by
  refine ⟨?_, ?_, ?_, ?_, ?_⟩
  · intro info tok ej n hj h200 ht he hn
    simp only [authenticate, hj]
    rw [if_pos h200]
    simp only [ht, he, hn]
  · intro hj
    unfold authenticate
    rw [hj]
  · intro info hj hne
    simp only [authenticate, hj]
    rw [if_neg hne]
  · intro info e hj h200 ht
    simp only [authenticate, hj]
    rw [if_pos h200, ht]
  · intro info tok e hj h200 ht he
    simp only [authenticate, hj]
    rw [if_pos h200, ht, he]

/-- Witness for C3 (amended): a well-formed 200 token response replaces
both fields wholesale. -/
theorem c3_witness :
    authenticate 5
        ⟨200, "", some (Json.obj
          [("access_token", Json.str "T1"), ("expires_in", Json.num 3600)])⟩
        ⟨some (Json.str "T0"), some 2⟩
      = .ok ⟨some (Json.str "T1"), some 3605⟩ () := by
  have h := (c3_token_replacement 5
      ⟨200, "", some (Json.obj
        [("access_token", Json.str "T1"), ("expires_in", Json.num 3600)])⟩
      ⟨some (Json.str "T0"), some 2⟩).1
      (Json.obj [("access_token", Json.str "T1"), ("expires_in", Json.num 3600)])
      (Json.str "T1") (Json.num 3600) 3600 rfl rfl rfl rfl rfl
  simpa using h

/-- Claim C5: a non-200 resource response makes `make_request` raise a
request error carrying the numeric status code and the raw body text, and
a 200 response with a parseable body yields the parsed JSON. -/
theorem c5_make_request_errors (endpoint : String) (now : Int)
    (aresp rresp : HttpResponse) (s s1 : ConnState) (n : Nat)
    (hr : refresh_token now aresp s = (.ok s1 (), n)) :
    (rresp.status ≠ 200 →
        make_request endpoint now aresp rresp s
          = (.exn (.requestError rresp.status rresp.text) s1,
             ⟨n, some (base_url ++ endpoint)⟩)) ∧
    (∀ j, rresp.status = 200 → rresp.json? = some j →
        make_request endpoint now aresp rresp s
          = (.ok s1 j, ⟨n, some (base_url ++ endpoint)⟩)) := by
  constructor
  · intro hne
    exact make_request_err endpoint now aresp rresp s s1 n hr hne
  · intro j h200 hj
    exact make_request_ok endpoint now aresp rresp s s1 n j hr h200 hj

/-- Witness for C5: a 401 with body "Unauthorized" surfaces
`requestError 401 "Unauthorized"` to the caller. -/
theorem c5_witness :
    make_request "me/playlists" 5 ⟨200, "", some Json.null⟩
        ⟨401, "Unauthorized", none⟩ ⟨some (Json.str "T"), some 9⟩
      = (.exn (.requestError 401 "Unauthorized") ⟨some (Json.str "T"), some 9⟩,
         ⟨0, some (base_url ++ "me/playlists")⟩) :=
  (c5_make_request_errors "me/playlists" 5 ⟨200, "", some Json.null⟩
    ⟨401, "Unauthorized", none⟩ ⟨some (Json.str "T"), some 9⟩
    ⟨some (Json.str "T"), some 9⟩ 0 rfl).1 (by decide)

/-- Claim C1: `make_request` runs `refresh_token` before the GET; it calls
`authenticate` exactly once when the token is expired, zero times when it
is fresh, never more than once, and a failing re-authentication propagates
with no GET issued and no retry. -/
theorem c1_refresh_before_request (endpoint : String) (now : Int)
    (aresp rresp : HttpResponse) (s : ConnState) :
    ((make_request endpoint now aresp rresp s).2.auth_calls ≤ 1) ∧
    (is_token_expired now s = .ok true →
        (make_request endpoint now aresp rresp s).2.auth_calls = 1) ∧
    (is_token_expired now s = .ok false →
        (make_request endpoint now aresp rresp s).2.auth_calls = 0) ∧
    (∀ e s1, is_token_expired now s = .ok true →
        authenticate now aresp s = .exn e s1 →
        make_request endpoint now aresp rresp s = (.exn e s1, ⟨1, none⟩)) := by
  refine ⟨?_, ?_, ?_, ?_⟩
  · rw [make_request_auth_calls]
    exact refresh_token_calls_le now aresp s
  · intro h
    rw [make_request_auth_calls, refresh_token_expired now aresp s h]
  · intro h
    rw [make_request_auth_calls, refresh_token_fresh now aresp s h]
  · intro e s1 hexp hauth
    have hrt : refresh_token now aresp s = (.exn e s1, 1) := by
      rw [refresh_token_expired now aresp s hexp, hauth]
    simp only [make_request, hrt]

/-- Witness for C1: an expired token plus a failing re-authentication make
`make_request` propagate the authentication error after exactly one
`authenticate` call, with no GET issued. -/
theorem c1_witness :
    make_request "tracks" 1 ⟨500, "b", some Json.null⟩
        ⟨200, "", some Json.null⟩ ⟨none, some 0⟩
      = (.exn .authError ⟨none, some 0⟩, ⟨1, none⟩) :=
  (c1_refresh_before_request "tracks" 1 ⟨500, "b", some Json.null⟩
    ⟨200, "", some Json.null⟩ ⟨none, some 0⟩).2.2.2
    .authError ⟨none, some 0⟩ rfl rfl

/-- The trace of a `get_playlists` call is the trace of its underlying
`make_request` call. -/
theorem get_playlists_run_trace (now : Int) (aresp rresp : HttpResponse)
    (s : ConnState) (category_id : Option String) :
    (get_playlists_run now aresp rresp s category_id).2
      = (make_request (get_playlists_endpoint category_id)
          now aresp rresp s).2 := by
  unfold get_playlists_run
  rcases h : make_request (get_playlists_endpoint category_id)
      now aresp rresp s with ⟨r, t⟩
  rcases r with ⟨s1, d⟩ | ⟨e, s1⟩
  · rcases hx : get_playlists_extract d with e2 | ids <;> simp only [hx]
  · rfl

/-- Claim C6: `get_playlists` selects the category-scoped endpoint when a
category id is given and the featured endpoint when it is `None`; a GET is
issued to exactly that endpoint; the result is the ordered list of the
`id` fields of `playlists.items`, and an absent or empty `playlists` /
`items` structure yields the empty list rather than an error. -/
theorem c6_get_playlists (now : Int) (aresp rresp : HttpResponse)
    (s : ConnState) :
    (∀ c : String, c ≠ "" →
        get_playlists_endpoint (some c)
          = "browse/categories/" ++ c ++ "/playlists") ∧
    (get_playlists_endpoint none = "browse/featured-playlists") ∧
    (∀ category_id s1 n, refresh_token now aresp s = (.ok s1 (), n) →
        (get_playlists_run now aresp rresp s category_id).2.get_url
          = some (base_url ++ get_playlists_endpoint category_id)) ∧
    (∀ fs, lookupField fs "playlists" = none →
        get_playlists_extract (.obj fs) = .ok []) ∧
    (∀ fs gs, lookupField fs "playlists" = some (.obj gs) →
        lookupField gs "items" = none →
        get_playlists_extract (.obj fs) = .ok []) ∧
    (∀ fs gs, lookupField fs "playlists" = some (.obj gs) →
        lookupField gs "items" = some (.arr []) →
        get_playlists_extract (.obj fs) = .ok []) ∧
    (∀ xs ids, List.Forall₂ (fun x i => Json.getKeyE x "id" = .ok i) xs ids →
        get_playlists_extract
            (.obj [("playlists", .obj [("items", .arr xs)])]) = .ok ids) ∧
    (∀ category_id s1 data t ids,
        make_request (get_playlists_endpoint category_id) now aresp rresp s
          = (.ok s1 data, t) →
        get_playlists_extract data = .ok ids →
        get_playlists_run now aresp rresp s category_id
          = (.ok s1 ids, t)) := by
  refine ⟨?_, ?_, ?_, ?_, ?_, ?_, ?_, ?_⟩
  · intro c hc
    unfold get_playlists_endpoint
    rw [if_pos]
    · rfl
    · simpa [pyTruthy] using hc
  · rfl
  · intro category_id s1 n hr
    rw [get_playlists_run_trace,
        make_request_trace_of_refresh_ok _ now aresp rresp s s1 n hr]
  · intro fs h
    simp only [get_playlists_extract, Json.pyGet, h]
    rfl
  · intro fs gs h1 h2
    simp only [get_playlists_extract, Json.pyGet, h1, Option.getD_some, h2,
      Option.getD_none]
    rfl
  · intro fs gs h1 h2
    simp only [get_playlists_extract, Json.pyGet, h1, Option.getD_some, h2,
      Option.getD_some]
    rfl
  · intro xs ids h
    have h1 : get_playlists_extract
        (.obj [("playlists", .obj [("items", .arr xs)])])
        = listComp (fun playlist => playlist.getKeyE "id") xs := rfl
    rw [h1]
    exact listComp_ok_of_forall2 _ xs ids h
  · intro category_id s1 data t ids hm hx
    simp only [get_playlists_run, hm, hx]

/-- Witness for C6: the category "rock" selects the category-scoped
endpoint, and a concrete two-item listing yields its two ids in order. -/
theorem c6_witness :
    get_playlists_endpoint (some "rock") = "browse/categories/rock/playlists" ∧
    get_playlists_extract
        (Json.obj [("playlists", Json.obj [("items", Json.arr
          [Json.obj [("id", Json.str "p1")],
           Json.obj [("id", Json.str "p2")]])])])
      = .ok [Json.str "p1", Json.str "p2"] :=
  have h := c6_get_playlists 0 ⟨200, "", none⟩ ⟨200, "", none⟩ ⟨none, none⟩
  ⟨h.1 "rock" (by decide),
   h.2.2.2.2.2.2.1
     [Json.obj [("id", Json.str "p1")], Json.obj [("id", Json.str "p2")]]
     [Json.str "p1", Json.str "p2"]
     (List.Forall₂.cons rfl (List.Forall₂.cons rfl List.Forall₂.nil))⟩

/-- The per-item shape hypothesis of claim C7: the item holds a `track`
object whose `name` is the record's name, whose `artists` list has the
record's artist name as the `name` of its first entry, and whose `id` is
the record's id. -/
def itemProj (x : Json) (r : TrackDetail) : Prop :=
  ∃ track a rest,
    Json.getKeyE x "track" = .ok track ∧
    Json.getKeyE track "name" = .ok r.name ∧
    Json.getKeyE track "artists" = .ok (Json.arr (a :: rest)) ∧
    Json.getKeyE a "name" = .ok r.artist ∧
    Json.getKeyE track "id" = .ok r.id

/-- An item of the expected nested shape projects to exactly the record
the shape describes. -/
theorem extract_track_of_itemProj (x : Json) (r : TrackDetail)
    (h : itemProj x r) : extract_track x = .ok r := by
  obtain ⟨track, a, rest, h1, h2, h3, h4, h5⟩ := h
  simp only [extract_track, h1, h2, h3, Json.pyIndex, List.get?, h4, h5]

/-- Claim C7: a 200 response to `get_playlist_tracks` whose items each hold
a track object with the expected nested fields yields one record per item,
in response order, each record being the track's name, the name of the
first entry of its artists list, and the track's id. -/
theorem c7_get_playlist_tracks (playlist_id : String) (now : Int)
    (aresp : HttpResponse) (txt : String) (s s1 : ConnState) (n : Nat)
    (items : List Json) (recs : List TrackDetail)
    (hr : refresh_token now aresp s = (.ok s1 (), n))
    (h : List.Forall₂ itemProj items recs) :
    (get_playlist_tracks_run playlist_id now aresp
        ⟨200, txt, some (.obj [("items", .arr items)])⟩ s).1
      = .ok s1 recs ∧
    recs.length = items.length := by
  constructor
  · have hlist : listComp extract_track items = .ok recs :=
      listComp_ok_of_forall2 extract_track items recs
        (h.imp (fun a b hab => extract_track_of_itemProj a b hab))
    have hx : get_playlist_tracks_extract (.obj [("items", .arr items)])
        = .ok recs := hlist
    have hm := make_request_ok ("playlists/" ++ playlist_id ++ "/tracks")
        now aresp ⟨200, txt, some (.obj [("items", .arr items)])⟩ s s1 n
        (.obj [("items", .arr items)]) hr rfl rfl
    simp only [get_playlist_tracks_run, hm, hx]
  · exact h.length_eq.symm

/-- Witness for C7: a two-item fixture yields exactly two records, each
built from the first entry of its artists list (the second artists are
ignored). -/
theorem c7_witness :
    (get_playlist_tracks_run "abc" 3 ⟨200, "", none⟩
        ⟨200, "", some (Json.obj [("items", Json.arr
          [Json.obj [("track", Json.obj
             [("name", Json.str "Song1"),
              ("artists", Json.arr
                [Json.obj [("name", Json.str "ArtistA")],
                 Json.obj [("name", Json.str "ArtistX")]]),
              ("id", Json.str "id1")])],
           Json.obj [("track", Json.obj
             [("name", Json.str "Song2"),
              ("artists", Json.arr
                [Json.obj [("name", Json.str "ArtistB")],
                 Json.obj [("name", Json.str "ArtistY")]]),
              ("id", Json.str "id2")])]])])⟩
        ⟨some (Json.str "T"), some 10⟩).1
      = .ok ⟨some (Json.str "T"), some 10⟩
          [⟨Json.str "Song1", Json.str "ArtistA", Json.str "id1"⟩,
           ⟨Json.str "Song2", Json.str "ArtistB", Json.str "id2"⟩] :=
  (c7_get_playlist_tracks "abc" 3 ⟨200, "", none⟩ ""
    ⟨some (Json.str "T"), some 10⟩ ⟨some (Json.str "T"), some 10⟩ 0
    [Json.obj [("track", Json.obj
       [("name", Json.str "Song1"),
        ("artists", Json.arr
          [Json.obj [("name", Json.str "ArtistA")],
           Json.obj [("name", Json.str "ArtistX")]]),
        ("id", Json.str "id1")])],
     Json.obj [("track", Json.obj
       [("name", Json.str "Song2"),
        ("artists", Json.arr
          [Json.obj [("name", Json.str "ArtistB")],
           Json.obj [("name", Json.str "ArtistY")]]),
        ("id", Json.str "id2")])]]
    [⟨Json.str "Song1", Json.str "ArtistA", Json.str "id1"⟩,
     ⟨Json.str "Song2", Json.str "ArtistB", Json.str "id2"⟩]
    rfl
    (List.Forall₂.cons ⟨_, _, _, rfl, rfl, rfl, rfl, rfl⟩
      (List.Forall₂.cons ⟨_, _, _, rfl, rfl, rfl, rfl, rfl⟩
        List.Forall₂.nil))).1
